import Mathlib

/-!
# Verification of the financial data collector's parsing/validation core

This file is a shallow embedding in Lean 4 of the parsing and validation
core of `tools.py` (`_sanitize_and_parse_number_str`,
`_parse_multi_item_list`, `_parse_yes_no_flag`,
`validate_all_essential_data`), together with theorems settling the
frozen claims about that code.

Modelling conventions:
* Python `float` values are modelled as exact rationals (`ℚ`); the
  `math.isnan`/`math.isinf` defensive check of the source can never fire
  over `ℚ`, and the `float(num_part)` call (whose `ValueError` branch is
  unreachable because the regex guarantees a valid literal) is modelled
  by exact evaluation of the matched digit groups.
* Rational arithmetic is performed through the executable wrappers
  `rAdd`/`rMul`/`rDiv`/`rSub` below (the library's `+`/`*`/`/` on `ℚ`
  are irreducible and do not evaluate inside the kernel); the lemmas
  `rAdd_eq`/`rMul_eq`/`rDiv_eq` identify them with the field operations.
* Python `round(x, 2)` is modelled as exact round-half-to-even at two
  decimal places (`round2` below).
* Python strings are modelled as `String`/`List Char`; `str.strip()` is
  modelled over the ASCII whitespace characters.
* A Python argument that may be `None` is modelled as `Option String`;
  an uncaught Python exception is modelled by `PyResult.exn`.
* The success/error envelopes (`_success_dict`/`_error_dict`) carry
  their payload structurally (`Envelope` below): the source serialises
  the same mappings with `json.dumps`, which is abstracted away, and
  dictionary insertion order is preserved as list order.
-/

deriving instance DecidableEq for Except

/-! ## Executable rational arithmetic -/

/-- Executable addition on `ℚ` (the library's `Rat.add` is irreducible). -/
def rAdd (a b : ℚ) : ℚ := mkRat (a.num * (b.den : ℤ) + b.num * (a.den : ℤ)) (a.den * b.den)

/-- Executable multiplication on `ℚ`. -/
def rMul (a b : ℚ) : ℚ := mkRat (a.num * b.num) (a.den * b.den)

/-- Executable division on `ℚ` (division by zero yields zero, as in the library). -/
def rDiv (a b : ℚ) : ℚ := Rat.divInt (a.num * (b.den : ℤ)) ((a.den : ℤ) * b.num)

/-- Executable subtraction on `ℚ`. -/
def rSub (a b : ℚ) : ℚ := rAdd a (Rat.neg b)

/-! ## Python string helpers -/

/-- ASCII whitespace stripped by Python's `str.strip()` (space, tab,
newline, carriage return, vertical tab, form feed). -/
def pySpace (c : Char) : Bool :=
  c = ' ' || c = '\t' || c = '\n' || c = '\r' || c = Char.ofNat 11 || c = Char.ofNat 12

/-- Python `str.strip()`: drop leading and trailing whitespace. -/
def pyStrip (l : List Char) : List Char :=
  ((l.dropWhile pySpace).reverse.dropWhile pySpace).reverse

/-- The symbol removal of `_sanitize_and_parse_number_str`:
`raw.replace(",", "").replace("₹", "").replace("$", "").replace(" ", "")`. -/
def cleanNum (l : List Char) : List Char :=
  l.filter (fun c => !(c = ',' || c = '₹' || c = '$' || c = ' '))

/-! ## The number parser (`_sanitize_and_parse_number_str`) -/

/-- The optional sign of the regex `[-+]?`: consume a leading `-` or `+`,
returning whether the value is negated and the remaining characters. -/
def splitSign (cs : List Char) : Bool × List Char :=
  match cs with
  | [] => (false, [])
  | c :: t => if c = '-' then (true, t) else if c = '+' then (false, t) else (false, cs)

/-- The suffix class `[kKmM]` of the regex. -/
def isSuffixChar (c : Char) : Bool :=
  c = 'k' || c = 'K' || c = 'm' || c = 'M'

/-- Result of matching `^([-+]?[0-9]*\.?[0-9]+)([kKmM])?$`:
sign, integer digits (possibly empty), fractional digits (present iff a
dot was matched, and then nonempty), optional multiplier suffix. -/
structure NumMatch where
  neg : Bool
  ipart : List Char
  fpart : Option (List Char)
  sfx : Option Char
deriving DecidableEq, Repr

/-- Matching `([0-9]*\.?[0-9]+)([kKmM])?$` after the optional sign.
The regex with backtracking is equivalent to this deterministic
maximal-munch matcher: digits, then optionally a dot followed by at
least one digit, then an optional suffix character, then end of input. -/
def matchAfterSign (rest : List Char) : Option (List Char × Option (List Char) × Option Char) :=
  let ds := rest.takeWhile Char.isDigit
  match rest.dropWhile Char.isDigit with
  | [] => if ds.isEmpty then none else some (ds, none, none)
  | c :: t =>
    if c = '.' then
      let fs := t.takeWhile Char.isDigit
      match t.dropWhile Char.isDigit with
      | [] => if fs.isEmpty then none else some (ds, some fs, none)
      | c2 :: t2 =>
        if !fs.isEmpty && isSuffixChar c2 && t2.isEmpty then some (ds, some fs, some c2)
        else none
    else
      if !ds.isEmpty && isSuffixChar c && t.isEmpty then some (ds, none, some c)
      else none

/-- Python's `$` (without `re.MULTILINE`) matches at end of input or
just before one trailing newline, so the regex accepts the core match
followed by at most one final `'\n'`; no regex atom can consume the
newline itself.  This removes that one optional trailing newline. -/
def dropTrailingNewline (cs : List Char) : List Char :=
  if cs.getLast? = some '\n' then cs.dropLast else cs

/-- Full match of `^([-+]?[0-9]*\.?[0-9]+)([kKmM])?$` on the cleaned
string: `$` permits one trailing newline, and the rest of the pattern
must consume everything before it. -/
def matchNumber (cs : List Char) : Option NumMatch :=
  let sr := splitSign (dropTrailingNewline cs)
  (matchAfterSign sr.2).map (fun g => ⟨sr.1, g.1, g.2.1, g.2.2⟩)

/-- Value of a digit group, most significant digit first. -/
def digitsToNat (ds : List Char) : ℕ :=
  ds.foldl (fun a c => 10 * a + (c.toNat - 48)) 0

/-- `float(num_part)` followed by the suffix multiplication of the source
(`k`/`K` → ×1000, `m`/`M` → ×1000000), in exact rational arithmetic. -/
def numValue (m : NumMatch) : ℚ :=
  let base : ℚ := rAdd (digitsToNat m.ipart : ℚ)
    (match m.fpart with
     | none => 0
     | some fs => rDiv (digitsToNat fs : ℚ) (((10 : ℕ) ^ fs.length : ℕ) : ℚ))
  let v := if m.neg then Rat.neg base else base
  match m.sfx with
  | none => v
  | some c => if c = 'k' || c = 'K' then rMul v 1000 else rMul v 1000000

/-- Embedding of `_sanitize_and_parse_number_str`.  The Python parameter
may be passed as `None` by callers; the source checks
`s is None or not s.strip()` first.  Success carries the parsed value,
failure the error message. -/
def sanitize_and_parse_number_str (s : Option String) : Except String ℚ :=
  match s with
  | none => .error "No value provided"
  | some s =>
    if pyStrip s.data = [] then .error "No value provided"
    else
      match matchNumber (cleanNum (pyStrip s.data)) with
      | none => .error ("Unrecognized numeric format: '" ++ s ++ "'")
      | some m => .ok (numValue m)

/-! ## Rounding (`round(x, 2)`) -/

/-- Floor of a rational (the denominator is positive, so flooring is
floor-division of the numerator by the denominator). -/
def ratFloor (q : ℚ) : ℤ := Int.fdiv q.num q.den

/-- Round to the nearest integer, ties to even: the rounding used by
Python's builtin `round`. -/
def roundHalfEven (q : ℚ) : ℤ :=
  let f := ratFloor q
  let r := rSub q (f : ℚ)
  if Rat.blt r (mkRat 1 2) then f
  else if Rat.blt (mkRat 1 2) r then f + 1
  else if f % 2 = 0 then f else f + 1

/-- Python `round(x, 2)`, in exact rational arithmetic. -/
def round2 (q : ℚ) : ℚ := rDiv ((roundHalfEven (rMul q 100) : ℤ) : ℚ) 100

/-! ## The flag parser (`_parse_yes_no_flag`) -/

/-- Embedding of `_parse_yes_no_flag`: trims, lowercases, and compares
against the fixed true/false token sets. -/
def parse_yes_no_flag (s : Option String) (field_label : String) : Except String Bool :=
  match s with
  | none => .error ("'" ++ field_label ++ "' is required and must be Yes or No.")
  | some s =>
    if pyStrip s.data = [] then
      .error ("'" ++ field_label ++ "' is required and must be Yes or No.")
    else
      let raw := (pyStrip s.data).map Char.toLower
      if raw = "yes".data ∨ raw = "y".data ∨ raw = "true".data ∨ raw = "1".data then .ok true
      else if raw = "no".data ∨ raw = "n".data ∨ raw = "false".data ∨ raw = "0".data then .ok false
      else
        .error ("'" ++ field_label ++
          "' must be Yes/No (accepted: yes/y/true/1 or no/n/false/0). Got: '" ++ s ++ "'")

/-! ## JSON values (`json.loads` / `str()` of loaded values)

The JSON branch of `_parse_multi_item_list` calls the standard-library
`json.loads` and renders each value back to a string with `str(v)`.
These are modelled below by a strict JSON parser over the standard JSON
grammar (objects, arrays, strings with escapes, numbers with optional
fraction and exponent, `true`/`false`/`null`; duplicate object keys
keep the first insertion position with the last value, as a Python
`dict` does) and a rendering function following Python's `str`
(`repr` for nested containers).  Python renders a float as its shortest
round-tripping decimal; here a float value is rendered as the exact
decimal value of the parsed literal, which agrees on all inputs the
claims touch. -/

/-- The left-brace character, `'{'`. -/
def lbrace : Char := Char.ofNat 123

/-- The right-brace character, `'}'`. -/
def rbrace : Char := Char.ofNat 125

/-- A JSON value as produced by `json.loads`.  A number remembers
whether it was an integer literal (Python then yields `int`, otherwise
`float`), since `str()` renders the two differently. -/
inductive JVal where
  | jnull : JVal
  | jbool (b : Bool) : JVal
  | jnum (isInt : Bool) (q : ℚ) : JVal
  | jstr (s : String) : JVal
  | jarr (xs : List JVal) : JVal
  | jobj (fields : List (String × JVal)) : JVal

/-- JSON whitespace skipped between tokens. -/
def jskipWs (cs : List Char) : List Char :=
  cs.dropWhile (fun c => c = ' ' || c = '\t' || c = '\n' || c = '\r')

/-- Hexadecimal digit value, for `\uXXXX` escapes. -/
def hexVal (c : Char) : Option ℕ :=
  if c.isDigit then some (c.toNat - 48)
  else if 'a' ≤ c ∧ c ≤ 'f' then some (c.toNat - 87)
  else if 'A' ≤ c ∧ c ≤ 'F' then some (c.toNat - 55)
  else none

/-- Parse the body of a JSON string literal (the opening quote already
consumed), with the standard escapes. -/
def jparseStrAux : ℕ → List Char → List Char → Except String (String × List Char)
  | 0, _, _ => .error "Unterminated string"
  | _ + 1, _, [] => .error "Unterminated string"
  | fuel + 1, acc, c :: rest =>
    if c = '"' then .ok (String.mk acc.reverse, rest)
    else if c = '\\' then
      match rest with
      | [] => .error "Unterminated string"
      | e :: rest2 =>
        if e = '"' then jparseStrAux fuel ('"' :: acc) rest2
        else if e = '\\' then jparseStrAux fuel ('\\' :: acc) rest2
        else if e = '/' then jparseStrAux fuel ('/' :: acc) rest2
        else if e = 'b' then jparseStrAux fuel (Char.ofNat 8 :: acc) rest2
        else if e = 'f' then jparseStrAux fuel (Char.ofNat 12 :: acc) rest2
        else if e = 'n' then jparseStrAux fuel ('\n' :: acc) rest2
        else if e = 'r' then jparseStrAux fuel ('\r' :: acc) rest2
        else if e = 't' then jparseStrAux fuel ('\t' :: acc) rest2
        else if e = 'u' then
          match rest2 with
          | h1 :: h2 :: h3 :: h4 :: rest3 =>
            match hexVal h1, hexVal h2, hexVal h3, hexVal h4 with
            | some a, some b, some c2, some d =>
              jparseStrAux fuel (Char.ofNat (((a * 16 + b) * 16 + c2) * 16 + d) :: acc) rest3
            | _, _, _, _ => .error "Invalid hex escape"
          | _ => .error "Invalid hex escape"
        else .error "Invalid escape"
    else if c.toNat < 32 then .error "Invalid control character"
    else jparseStrAux fuel (c :: acc) rest

/-- Parse a JSON number token per the JSON grammar
`-?(0|[1-9][0-9]*)(\.[0-9]+)?([eE][-+]?[0-9]+)?`, returning its exact
value and whether it was an integer literal. -/
def jparseNumber (cs : List Char) : Except String (JVal × List Char) :=
  let sr : Bool × List Char := match cs with
    | '-' :: t => (true, t)
    | _ => (false, cs)
  let ids : List Char :=
    match sr.2 with
    | '0' :: _ => ['0']
    | l => l.takeWhile Char.isDigit
  if ids = [] then .error "Expecting value"
  else
    let r2 := sr.2.drop ids.length
    let fr : List Char × List Char :=
      match r2 with
      | '.' :: t =>
        let fs := t.takeWhile Char.isDigit
        if fs = [] then ([], r2) else (fs, t.drop fs.length)
      | _ => ([], r2)
    let ex : Option (Bool × List Char) × List Char :=
      match fr.2 with
      | 'e' :: t =>
        (match t with
         | '-' :: t2 =>
           let es := t2.takeWhile Char.isDigit
           if es = [] then (none, fr.2) else (some (true, es), t2.drop es.length)
         | '+' :: t2 =>
           let es := t2.takeWhile Char.isDigit
           if es = [] then (none, fr.2) else (some (false, es), t2.drop es.length)
         | t2 =>
           let es := t2.takeWhile Char.isDigit
           if es = [] then (none, fr.2) else (some (false, es), t2.drop es.length))
      | 'E' :: t =>
        (match t with
         | '-' :: t2 =>
           let es := t2.takeWhile Char.isDigit
           if es = [] then (none, fr.2) else (some (true, es), t2.drop es.length)
         | '+' :: t2 =>
           let es := t2.takeWhile Char.isDigit
           if es = [] then (none, fr.2) else (some (false, es), t2.drop es.length)
         | t2 =>
           let es := t2.takeWhile Char.isDigit
           if es = [] then (none, fr.2) else (some (false, es), t2.drop es.length))
      | _ => (none, fr.2)
    let base : ℚ := rAdd (digitsToNat ids : ℚ)
      (rDiv (digitsToNat fr.1 : ℚ) (((10 : ℕ) ^ fr.1.length : ℕ) : ℚ))
    let scaled : ℚ :=
      match ex.1 with
      | none => base
      | some (eneg, es) =>
        if eneg then rDiv base (((10 : ℕ) ^ digitsToNat es : ℕ) : ℚ)
        else rMul base (((10 : ℕ) ^ digitsToNat es : ℕ) : ℚ)
    let v : ℚ := if sr.1 then Rat.neg scaled else scaled
    .ok (.jnum (fr.1 = [] && ex.1 = none) v, ex.2)

/-- Insert a key into an object under Python `dict` semantics: a
duplicate key keeps its first position but takes the new value. -/
def insertKey (fields : List (String × JVal)) (k : String) (v : JVal) :
    List (String × JVal) :=
  match fields with
  | [] => [(k, v)]
  | (k0, v0) :: rest => if k0 = k then (k0, v) :: rest else (k0, v0) :: insertKey rest k v

/-- What the recursive JSON parser is currently parsing: a value, the
members of an object, or the elements of an array (with the fields or
elements accumulated so far). -/
inductive JTask where
  | value : JTask
  | obj (acc : List (String × JVal)) : JTask
  | arr (acc : List JVal) : JTask

/-- The recursive-descent JSON parser, fuelled so that the recursion is
structural (and hence evaluates inside the kernel).  `JTask.obj`/`.arr`
expect the opening brace/bracket and leading whitespace to have been
consumed. -/
def jparseGo : ℕ → JTask → List Char → Except String (JVal × List Char)
  | 0, _, _ => .error "Too deeply nested"
  | fuel + 1, .value, cs =>
    match jskipWs cs with
    | [] => .error "Expecting value"
    | c :: rest =>
      if c = lbrace then jparseGo fuel (.obj []) (jskipWs rest)
      else if c = '[' then jparseGo fuel (.arr []) (jskipWs rest)
      else if c = '"' then
        match jparseStrAux (rest.length + 1) [] rest with
        | .error e => .error e
        | .ok (s, r) => .ok (.jstr s, r)
      else if c = 't' then
        match rest with
        | 'r' :: 'u' :: 'e' :: r => .ok (.jbool true, r)
        | _ => .error "Expecting value"
      else if c = 'f' then
        match rest with
        | 'a' :: 'l' :: 's' :: 'e' :: r => .ok (.jbool false, r)
        | _ => .error "Expecting value"
      else if c = 'n' then
        match rest with
        | 'u' :: 'l' :: 'l' :: r => .ok (.jnull, r)
        | _ => .error "Expecting value"
      else if c = '-' || c.isDigit then jparseNumber (c :: rest)
      else .error "Expecting value"
  | _ + 1, .obj _, [] => .error "Expecting property name"
  | fuel + 1, .obj acc, c :: rest =>
    if c = rbrace && acc.isEmpty then .ok (.jobj [], rest)
    else if c = '"' then
      match jparseStrAux (rest.length + 1) [] rest with
      | .error e => .error e
      | .ok (k, r) =>
        match jskipWs r with
        | ':' :: r2 =>
          match jparseGo fuel .value r2 with
          | .error e => .error e
          | .ok (v, r3) =>
            match jskipWs r3 with
            | ',' :: r4 => jparseGo fuel (.obj (insertKey acc k v)) (jskipWs r4)
            | c2 :: r4 =>
              if c2 = rbrace then .ok (.jobj (insertKey acc k v), r4)
              else .error "Expecting delimiter"
            | [] => .error "Expecting delimiter"
        | _ => .error "Expecting colon"
    else .error "Expecting property name"
  | _ + 1, .arr _, [] => .error "Expecting value"
  | fuel + 1, .arr acc, c :: rest =>
    if c = ']' && acc.isEmpty then .ok (.jarr [], rest)
    else
      match jparseGo fuel .value (c :: rest) with
      | .error e => .error e
      | .ok (v, r) =>
        match jskipWs r with
        | ',' :: r2 => jparseGo fuel (.arr (acc ++ [v])) r2
        | ']' :: r2 => .ok (.jarr (acc ++ [v]), r2)
        | _ => .error "Expecting delimiter"

/-- Embedding of `json.loads`: parse one value and require only
whitespace after it. -/
def json_loads (cs : List Char) : Except String JVal :=
  match jparseGo (2 * cs.length + 8) .value cs with
  | .error e => .error e
  | .ok (v, rest) => if jskipWs rest = [] then .ok v else .error "Extra data"

/-- Count and remove the factors `p` of a number (fuelled). -/
def countFactor (p : ℕ) : ℕ → ℕ → ℕ × ℕ
  | 0, n => (0, n)
  | fuel + 1, n =>
    if 2 ≤ p ∧ 0 < n ∧ n % p = 0 then
      let r := countFactor p fuel (n / p)
      (r.1 + 1, r.2)
    else (0, n)

/-- Decimal digits of the fractional part `fp / 10^f`, left-padded to
`f` digits with trailing zeros removed (at least one digit remains). -/
def fracDigits (f fp : ℕ) : List Char :=
  let ds := (toString fp).data
  let padded := List.replicate (f - ds.length) '0' ++ ds
  let stripped := (padded.reverse.dropWhile (fun c => c = '0')).reverse
  if stripped = [] then ['0'] else stripped

/-- Render a parsed JSON number as Python `str()` does: an integer
literal as its integer value, a float as its decimal expansion (the
model's stand-in for Python's shortest-round-trip float repr). -/
def numRender (isInt : Bool) (q : ℚ) : String :=
  if isInt then toString q.num
  else
    let sgn := if Rat.blt q 0 then "-" else ""
    let a := q.num.natAbs
    let d := q.den
    let c2 := countFactor 2 d d
    let c5 := countFactor 5 c2.2 c2.2
    if c5.2 ≠ 1 then sgn ++ toString a ++ "/" ++ toString d
    else
      let f := max c2.1 c5.1
      let m := a * 10 ^ f / d
      sgn ++ toString (m / 10 ^ f) ++ "." ++ String.mk (fracDigits f (m % 10 ^ f))

/-- Python `repr()` of a loaded JSON value. -/
def pyRepr : JVal → String
  | .jnull => "None"
  | .jbool b => if b then "True" else "False"
  | .jnum isInt q => numRender isInt q
  | .jstr s => "'" ++ s ++ "'"
  | .jarr xs =>
    "[" ++ String.intercalate ", " (xs.attach.map fun x => pyRepr x.1) ++ "]"
  | .jobj fs =>
    String.mk [lbrace] ++
      String.intercalate ", "
        (fs.attach.map fun f => "'" ++ f.1.1 ++ "': " ++ pyRepr f.1.2) ++
      String.mk [rbrace]
decreasing_by
· simp only [JVal.jarr.sizeOf_spec]
  have := List.sizeOf_lt_of_mem x.2
  omega
· simp only [JVal.jobj.sizeOf_spec]
  have h1 : sizeOf f.1.2 < sizeOf f.1 := by
    obtain ⟨a, b⟩ := f.1
    simp
  have h2 := List.sizeOf_lt_of_mem f.2
  omega

/-- Python `str()` of a loaded JSON value: `str` of a string is the
string itself; every other value renders as its `repr` (spelled out
here for the scalar constructors so that rendering a scalar is a
kernel-reducible computation). -/
def pyStr (v : JVal) : String :=
  match v with
  | .jstr s => s
  | .jnull => "None"
  | .jbool b => if b then "True" else "False"
  | .jnum isInt q => numRender isInt q
  | v => pyRepr v

/-! ## The multi-item list parser (`_parse_multi_item_list`) -/

/-- One parsed line item, `{"type": <label>, "amount": <float>}`. -/
structure Item where
  type : String
  amount : ℚ
deriving DecidableEq, Repr

/-- Split a list at the first occurrence of `c`
(Python `part.split(c, 1)` when `c` occurs): the text before the first
`c` and the text after it. -/
def splitFirst (c : Char) : List Char → Option (List Char × List Char)
  | [] => none
  | x :: t =>
    if x = c then some ([], t)
    else
      match splitFirst c t with
      | none => none
      | some (a, b) => some (x :: a, b)

/-- Python truthiness of the optional label:
`name.strip() if name else alt` — `None` and the empty string both fall
back to `alt`. -/
def truthyLabel (name? : Option (List Char)) (alt : String) : String :=
  match name? with
  | none => alt
  | some n => if n = [] then alt else String.mk (pyStrip n)

/-- Splitting on `re.split(r"[,\n;]+", raw)`: the split on single
delimiter occurrences; the caller discards empty fragments, which makes
this equivalent to splitting on delimiter runs. -/
def splitDelims : List Char → List (List Char)
  | [] => [[]]
  | c :: t =>
    let r := splitDelims t
    if c = ',' || c = '\n' || c = ';' then [] :: r
    else
      match r with
      | [] => [[c]]
      | h :: t2 => (c :: h) :: t2

/-- The fragments of the delimited form:
`[p.strip() for p in re.split(r"[,\n;]+", raw) if p.strip()]`. -/
def splitParts (raw : List Char) : List (List Char) :=
  ((splitDelims raw).map pyStrip).filter (fun p => !p.isEmpty)

/-- The optional label of a fragment: the text before the first colon
(`name, amt_raw = part.split(":", 1)` when a colon occurs, else `None`). -/
def partName (part : List Char) : Option (List Char) :=
  (splitFirst ':' part).map Prod.fst

/-- The amount text of a fragment: the text after the first colon when
one occurs, else the whole fragment. -/
def partAmtRaw (part : List Char) : List Char :=
  match splitFirst ':' part with
  | some pr => pr.2
  | none => part

/-- The loop of the delimited branch of `_parse_multi_item_list`:
processes the fragments in order, keeping the enumeration index `idx`,
the accumulated items and the running (unrounded) total; ends with
`return True, items, round(total, 2)`. -/
def processParts (nonneg : Bool) :
    List (List Char) → ℕ → List Item → ℚ → Except String (List Item × ℚ)
  | [], _, items, total => .ok (items, round2 total)
  | part :: rest, idx, items, total =>
    match sanitize_and_parse_number_str (some (String.mk (partAmtRaw part))) with
    | .error err =>
      .error ("Invalid value for '" ++ truthyLabel (partName part) (String.mk part) ++
        "': " ++ err)
    | .ok amt =>
      if nonneg && Rat.blt amt 0 then
        .error ("Value for '" ++ truthyLabel (partName part) ("item_" ++ toString idx) ++
          "' must be non-negative.")
      else
        processParts nonneg rest (idx + 1)
          (items ++ [⟨truthyLabel (partName part) ("item_" ++ toString items.length),
            round2 amt⟩])
          (rAdd total amt)

/-- The loop of the JSON branch of `_parse_multi_item_list`: each value
is rendered with `str(v)` and parsed by the number parser. -/
def processJsonItems (nonneg : Bool) :
    List (String × JVal) → List Item → ℚ → Except String (List Item × ℚ)
  | [], items, total => .ok (items, round2 total)
  | (k, v) :: rest, items, total =>
    match sanitize_and_parse_number_str (some (pyStr v)) with
    | .error err => .error ("Invalid amount for '" ++ k ++ "': " ++ err)
    | .ok amt =>
      if nonneg && Rat.blt amt 0 then
        .error ("Value for '" ++ k ++ "' must be non-negative.")
      else processJsonItems nonneg rest (items ++ [⟨k, round2 amt⟩]) (rAdd total amt)

/-- Embedding of `_parse_multi_item_list`.  Success carries the item
list and the total; failure carries the error message. -/
def parse_multi_item_list (input_str : String) (non_negative_check : Bool) :
    Except String (List Item × ℚ) :=
  let raw := pyStrip input_str.data
  if raw = [] then .ok ([], 0)
  else if raw.head? = some lbrace then
    match json_loads raw with
    | .error e => .error ("Invalid JSON format: " ++ e)
    | .ok (.jobj fields) => processJsonItems non_negative_check fields [] 0
    | .ok _ => .error "JSON must be a key-value object."
  else
    let parts := splitParts raw
    if parts = [] then .error "No items provided."
    else processParts non_negative_check parts 0 [] 0

/-- An uncaught Python exception (`exn`) versus a normal return (`ok`). -/
inductive PyResult (α : Type) where
  | ok (a : α) : PyResult α
  | exn (e : String) : PyResult α
deriving DecidableEq

/-- `_parse_multi_item_list` as called with a possibly-`None` argument:
the immediate `input_str.strip()` raises `AttributeError` on `None`. -/
def parse_multi_item_list_opt (s : Option String) (non_negative_check : Bool) :
    PyResult (Except String (List Item × ℚ)) :=
  match s with
  | none => .exn "AttributeError: 'NoneType' object has no attribute 'strip'"
  | some s => .ok (parse_multi_item_list s non_negative_check)

/-! ## The batch validator (`validate_all_essential_data`) -/

/-- A normalized field value inside the success payload. -/
inductive FieldValue where
  | num (q : ℚ) : FieldValue
  | items (l : List Item) : FieldValue
  | flag (b : Bool) : FieldValue
deriving DecidableEq, Repr

/-- The two-shape envelope of the tools: on success the source returns
`{"status": "success", "data": json.dumps(parsed_data)}`, on failure
`{"status": "error", "error_message": "Validation failed for some
fields. Errors: " + json.dumps(validation_errors)}`.  The envelope here
carries the two mappings structurally, in dictionary insertion order. -/
inductive Envelope where
  | success (data : List (String × FieldValue)) : Envelope
  | error (errors : List (String × String)) : Envelope
deriving DecidableEq, Repr

/-- Field 1 of `validate_all_essential_data` (`monthly_net_income`):
parse, then require the value to be strictly positive
(`elif val <= 0`). -/
def incomeField (s : Option String) :
    List (String × String) × List (String × FieldValue) :=
  match sanitize_and_parse_number_str s with
  | .error err => ([("monthly_net_income", err)], [])
  | .ok v =>
    if Rat.blt 0 v then ([], [("monthly_net_income", FieldValue.num v)])
    else ([("monthly_net_income", "Monthly net income must be greater than 0.")], [])

/-- Fields 2-4 (`monthly_commitments`, `monthly_emi_per_debt_type`,
`investment_contributions`): parse the multi-item list with the
non-negative check; on success store the items and their total. -/
def listField (errKey itemsKey totalKey : String) (s : String) :
    List (String × String) × List (String × FieldValue) :=
  match parse_multi_item_list s true with
  | .error err => ([(errKey, err)], [])
  | .ok (its, tot) =>
    ([], [(itemsKey, FieldValue.items its), (totalKey, FieldValue.num tot)])

/-- Fields 5-6 (`savings_per_month`, `emergency_fund_amount`): parse,
then require the value to be non-negative (`elif val < 0`). -/
def nonnegField (key emsg : String) (s : Option String) :
    List (String × String) × List (String × FieldValue) :=
  match sanitize_and_parse_number_str s with
  | .error err => ([(key, err)], [])
  | .ok v =>
    if Rat.blt v 0 then ([(key, emsg)], [])
    else ([], [(key, FieldValue.num v)])

/-- Fields 7-8 (`has_life_insurance`, `has_health_insurance`): parse
the yes/no flag (the error key doubles as the field label). -/
def flagField (key : String) (s : Option String) :
    List (String × String) × List (String × FieldValue) :=
  match parse_yes_no_flag s key with
  | .error err => ([(key, err)], [])
  | .ok b => ([], [(key, FieldValue.flag b)])

/-- The eight field validations of `validate_all_essential_data`, run
in source order; the first component collects `validation_errors`, the
second `parsed_data` (dictionary insertion order; the keys of distinct
fields are distinct, so the dictionaries are the concatenations). -/
def validateAllParts (i : Option String) (c e v : String) (sv ef l h : Option String) :
    List (String × String) × List (String × FieldValue) :=
  let f1 := incomeField i
  let f2 := listField "monthly_commitments" "commitments" "total_commitments" c
  let f3 := listField "monthly_emi_per_debt_type" "emis" "total_emi" e
  let f4 := listField "investment_contributions" "investments"
    "total_investment_contributions" v
  let f5 := nonnegField "savings_per_month" "Savings per month cannot be negative." sv
  let f6 := nonnegField "emergency_fund_amount" "Emergency fund total cannot be negative." ef
  let f7 := flagField "has_life_insurance" l
  let f8 := flagField "has_health_insurance" h
  (f1.1 ++ f2.1 ++ f3.1 ++ f4.1 ++ f5.1 ++ f6.1 ++ f7.1 ++ f8.1,
   f1.2 ++ f2.2 ++ f3.2 ++ f4.2 ++ f5.2 ++ f6.2 ++ f7.2 ++ f8.2)

/-- The accumulated `validation_errors` mapping. -/
def validationErrors (i : Option String) (c e v : String) (sv ef l h : Option String) :
    List (String × String) :=
  (validateAllParts i c e v sv ef l h).1

/-- The accumulated `parsed_data` mapping. -/
def validatedData (i : Option String) (c e v : String) (sv ef l h : Option String) :
    List (String × FieldValue) :=
  (validateAllParts i c e v sv ef l h).2

/-- Embedding of `validate_all_essential_data`.  The three multi-item
arguments reach `_parse_multi_item_list`, whose immediate
`input_str.strip()` raises `AttributeError` when the argument is
`None`; the remaining five arguments are `None`-tolerant
(`_sanitize_and_parse_number_str` and `_parse_yes_no_flag` check for
`None`).  With string list arguments the function always returns an
envelope: `Error` with the accumulated per-field error mapping if any
field failed, otherwise `Success` with the union of the normalized
field values. -/
def validate_all_essential_data (i c e v sv ef l h : Option String) : PyResult Envelope :=
  match c, e, v with
  | some c, some e, some v =>
    let parts := validateAllParts i c e v sv ef l h
    PyResult.ok (if parts.1 = [] then Envelope.success parts.2 else Envelope.error parts.1)
  | _, _, _ => PyResult.exn "AttributeError: 'NoneType' object has no attribute 'strip'"

/-! ## Definitions used to state the claims -/

/-- Field 1 fails iff the income string does not parse or parses to a
non-positive value. -/
def income_fails (s : Option String) : Bool :=
  match sanitize_and_parse_number_str s with
  | .error _ => true
  | .ok v => !(Rat.blt 0 v)

/-- Fields 2-4 fail iff the multi-item list parser fails. -/
def list_fails (s : String) : Bool :=
  match parse_multi_item_list s true with
  | .error _ => true
  | .ok _ => false

/-- Fields 5-6 fail iff the string does not parse or parses negative. -/
def nonneg_fails (s : Option String) : Bool :=
  match sanitize_and_parse_number_str s with
  | .error _ => true
  | .ok v => Rat.blt v 0

/-- Fields 7-8 fail iff the yes/no flag parser fails. -/
def flag_fails (s : Option String) (lbl : String) : Bool :=
  match parse_yes_no_flag s lbl with
  | .error _ => true
  | .ok _ => false

/-- The label a fragment of the delimited form receives when it is the
`n`-th accepted item: the trimmed text before its first colon if that
text is nonempty, otherwise the auto-generated `item_<n>`. -/
def fragLabel (part : List Char) (n : ℕ) : String :=
  truthyLabel (partName part) ("item_" ++ toString n)

/-- The labels the fragments `parts` receive when the items already
accumulated number `n`: each fragment adds exactly one item, so the
running count increases by one per fragment. -/
def labelsFrom : List (List Char) → ℕ → List String
  | [], _ => []
  | p :: ps, n => fragLabel p n :: labelsFrom ps (n + 1)

/-! ## Bridging lemmas for the executable arithmetic -/

theorem rAdd_eq (a b : ℚ) : rAdd a b = a + b := by
  rw [Rat.add_def]
  simp [rAdd, Rat.normalize_eq_mkRat, Int.mul_comm]

theorem rMul_eq (a b : ℚ) : rMul a b = a * b := by
  rw [Rat.mul_def]
  simp [rMul, Rat.normalize_eq_mkRat]

theorem rSub_eq (a b : ℚ) : rSub a b = a - b := by
  have : Rat.neg b = -b := rfl
  rw [rSub, rAdd_eq, this, sub_eq_add_neg]

theorem rat_lt_iff_blt (a b : ℚ) : a < b ↔ Rat.blt a b = true := Iff.rfl

theorem rat_le_iff_blt (a b : ℚ) : a ≤ b ↔ Rat.blt b a = false := Iff.rfl

/-- Evaluation of the embedding on the spec's test fixtures, checking
that the model reproduces the source's documented behavior. -/
theorem embedding_fixture_checks :
    parse_multi_item_list "rent:15000, groceries:8000" true =
      .ok ([⟨"rent", 15000⟩, ⟨"groceries", 8000⟩], 23000) ∧
    parse_multi_item_list "15000, 8000" true =
      .ok ([⟨"item_0", 15000⟩, ⟨"item_1", 8000⟩], 23000) ∧
    parse_multi_item_list "" true = .ok ([], 0) ∧
    parse_multi_item_list "\x7b\"rent\": 15000, \"groceries\": 8000\x7d" true =
      .ok ([⟨"rent", 15000⟩, ⟨"groceries", 8000⟩], 23000) ∧
    parse_multi_item_list "\x7b\"sip\":5000,\"nps\":-100\x7d" true =
      .error "Value for 'nps' must be non-negative." ∧
    parse_multi_item_list "a:xy" true =
      .error "Invalid value for 'a': Unrecognized numeric format: 'xy'" ∧
    parse_yes_no_flag (some "Y") "has_life_insurance" = .ok true ∧
    parse_yes_no_flag (some "maybe") "x" =
      .error "'x' must be Yes/No (accepted: yes/y/true/1 or no/n/false/0). Got: 'maybe'" ∧
    sanitize_and_parse_number_str (some "") = .error "No value provided" ∧
    sanitize_and_parse_number_str (some "abc") =
      .error "Unrecognized numeric format: 'abc'" ∧
    sanitize_and_parse_number_str (some "5\n,") = .ok 5 ∧
    sanitize_and_parse_number_str (some "5\n\n,") =
      .error "Unrecognized numeric format: '5\n\n,'" := by
  refine ⟨by decide, by decide, by decide, by decide, by decide, by decide, by decide,
    by decide, by decide, by decide, by decide, by decide⟩

/-! ## Claim theorems: concrete evaluations -/

/-- Claim C1 (code bug): the spec's ItemList invariant
`total == round(sum(item.amount for item in items), 2)` — with stored
amounts rounded to 2 decimals and the total the rounded sum of the
ROUNDED amounts — fails on the code: `_parse_multi_item_list` stores
`round(amt, 2)` per item but accumulates the UNROUNDED `amt` into
`total`.  On `"a:0.004, b:0.004"` the stored amounts are 0.0 and 0.0,
`round(0.0 + 0.0, 2) = 0`, yet the returned total is
`round(0.008, 2) = 0.01 ≠ 0`. -/
theorem c1_total_sums_unrounded_code_bug :
    parse_multi_item_list "a:0.004, b:0.004" true =
      .ok ([⟨"a", 0⟩, ⟨"b", 0⟩], mkRat 1 100) ∧
    round2 (rAdd 0 0) = 0 ∧ (mkRat 1 100 : ℚ) ≠ 0 := by decide

/-- Claim C8: suffix multipliers apply after the base conversion and
currency symbols and commas are stripped:
`parse_number("5k") = 5000.0`, `parse_number("1.2M") = 1200000.0`,
`parse_number("₹1,200.50") = 1200.50`. -/
theorem c8_suffix_and_currency_examples :
    sanitize_and_parse_number_str (some "5k") = .ok 5000 ∧
    sanitize_and_parse_number_str (some "1.2M") = .ok 1200000 ∧
    sanitize_and_parse_number_str (some "₹1,200.50") = .ok (mkRat 2401 2) ∧
    (mkRat 2401 2 : ℚ) = 1200.50 := by
  refine ⟨by decide, by decide, by decide, ?_⟩
  rw [Rat.mkRat_eq_div]
  norm_num

/-- Claim C4 counterexample: the claim says every parser/validator
returns an envelope for every input including `None` and never raises,
but `_parse_multi_item_list(None)` raises `AttributeError` at
`input_str.strip()`, and `validate_all_essential_data` therefore raises
when any of its three list arguments is `None`. -/
theorem c4_none_raises_counterexample :
    parse_multi_item_list_opt none true =
      PyResult.exn "AttributeError: 'NoneType' object has no attribute 'strip'" ∧
    validate_all_essential_data (some "1") none (some "") (some "")
      (some "0") (some "0") (some "y") (some "n") =
      PyResult.exn "AttributeError: 'NoneType' object has no attribute 'strip'" := by decide

/-- Claim C5 counterexample: the claim says every numeric scalar field
in a success payload is rounded to 2 decimal places, but the code
stores the UNROUNDED parsed value: with income `"0.004"` (and savings
`"0.004"`) the success payload carries 0.004, and
`round(0.004, 2) = 0.0 ≠ 0.004`. -/
theorem c5_unrounded_scalar_counterexample :
    validate_all_essential_data (some "0.004") (some "") (some "") (some "")
      (some "0.004") (some "0") (some "yes") (some "no") =
      PyResult.ok (Envelope.success
        [("monthly_net_income", FieldValue.num (mkRat 1 250)),
         ("commitments", FieldValue.items []), ("total_commitments", FieldValue.num 0),
         ("emis", FieldValue.items []), ("total_emi", FieldValue.num 0),
         ("investments", FieldValue.items []),
         ("total_investment_contributions", FieldValue.num 0),
         ("savings_per_month", FieldValue.num (mkRat 1 250)),
         ("emergency_fund_amount", FieldValue.num 0),
         ("has_life_insurance", FieldValue.flag true),
         ("has_health_insurance", FieldValue.flag false)]) ∧
    round2 (mkRat 1 250) ≠ mkRat 1 250 := by decide

/-- Claim C6 counterexample: the claim says success with an empty item
list and total 0.0 happens EXACTLY for empty/whitespace-only input, but
the non-whitespace input `"{}"` (the empty JSON object) also returns
success with an empty item list and total 0.0. -/
theorem c6_empty_exactly_counterexample :
    parse_multi_item_list "{}" true = .ok ([], 0) ∧ pyStrip "{}".data ≠ [] := by decide

/-- Claim C10 counterexample: the claim says a fragment whose text
before the first colon is nonempty but whitespace-only (`" :5000"`) is
kept as a labeled item with the empty-string label, but the code strips
each fragment before splitting on the colon, so `" :5000"` becomes
`":5000"` and is auto-labeled `item_1`, not labeled `""`.  (The first
conjunct exhibits the raw fragments before per-fragment stripping.) -/
theorem c10_ws_label_counterexample :
    splitDelims (pyStrip "x:1, :5000".data) = ["x:1".data, " :5000".data] ∧
    parse_multi_item_list "x:1, :5000" true =
      .ok ([⟨"x", 1⟩, ⟨"item_1", 5000⟩], 5001) ∧
    ("item_1" : String) ≠ "" := by decide

/-! ## Claim C2: the batch validator is fail-all -/

lemma incomeField_fst (s : Option String) :
    (incomeField s).1.map Prod.fst =
      if income_fails s then ["monthly_net_income"] else [] := by
  cases h : sanitize_and_parse_number_str s with
  | error e => simp [incomeField, income_fails, h]
  | ok v => cases hb : Rat.blt 0 v <;> simp [incomeField, income_fails, h, hb]

lemma listField_fst (k1 k2 k3 : String) (s : String) :
    (listField k1 k2 k3 s).1.map Prod.fst = if list_fails s then [k1] else [] := by
  cases h : parse_multi_item_list s true with
  | error e => simp [listField, list_fails, h]
  | ok r => simp [listField, list_fails, h]

lemma nonnegField_fst (k m : String) (s : Option String) :
    (nonnegField k m s).1.map Prod.fst = if nonneg_fails s then [k] else [] := by
  cases h : sanitize_and_parse_number_str s with
  | error e => simp [nonnegField, nonneg_fails, h]
  | ok v => cases hb : Rat.blt v 0 <;> simp [nonnegField, nonneg_fails, h, hb]

lemma flagField_fst (k : String) (s : Option String) :
    (flagField k s).1.map Prod.fst = if flag_fails s k then [k] else [] := by
  cases h : parse_yes_no_flag s k with
  | error e => simp [flagField, flag_fails, h]
  | ok b => simp [flagField, flag_fails, h]

/-- Claim C2: `validate_all_essential_data` validates every field
independently (fail-all): the accumulated error mapping names exactly
the failing fields, in the fixed field order (hence independently of
which fields fail), and whenever at least one field fails the function
returns a single `Error` envelope embedding exactly that mapping. -/
theorem c2_batch_fail_all (i c e v sv ef l h : String) :
    (validationErrors (some i) c e v (some sv) (some ef) (some l) (some h)).map Prod.fst =
      (if income_fails (some i) then ["monthly_net_income"] else []) ++
      (if list_fails c then ["monthly_commitments"] else []) ++
      (if list_fails e then ["monthly_emi_per_debt_type"] else []) ++
      (if list_fails v then ["investment_contributions"] else []) ++
      (if nonneg_fails (some sv) then ["savings_per_month"] else []) ++
      (if nonneg_fails (some ef) then ["emergency_fund_amount"] else []) ++
      (if flag_fails (some l) "has_life_insurance" then ["has_life_insurance"] else []) ++
      (if flag_fails (some h) "has_health_insurance" then ["has_health_insurance"] else []) ∧
    (validationErrors (some i) c e v (some sv) (some ef) (some l) (some h) ≠ [] →
      validate_all_essential_data (some i) (some c) (some e) (some v) (some sv) (some ef)
        (some l) (some h) =
      PyResult.ok (Envelope.error
        (validationErrors (some i) c e v (some sv) (some ef) (some l) (some h)))) := by
  constructor
  · simp only [validationErrors, validateAllParts, List.map_append, incomeField_fst,
      listField_fst, nonnegField_fst, flagField_fst]
  · intro hne
    simp only [validate_all_essential_data, validationErrors] at hne ⊢
    rw [if_neg hne]

/-- Witness for C2 at the spec's own example: a malformed income
(`"abc"`) together with a negative emergency fund (`"-5"`) yields a
single `Error` envelope whose mapping names exactly those two fields. -/
theorem c2_batch_fail_all_witness :
    (validationErrors (some "abc") "" "" "" (some "0") (some "-5") (some "yes")
      (some "no")).map Prod.fst =
      ["monthly_net_income", "emergency_fund_amount"] ∧
    validate_all_essential_data (some "abc") (some "") (some "") (some "") (some "0")
      (some "-5") (some "yes") (some "no") =
      PyResult.ok (Envelope.error
        (validationErrors (some "abc") "" "" "" (some "0") (some "-5") (some "yes")
          (some "no"))) := by
  have h := c2_batch_fail_all "abc" "" "" "" "0" "-5" "yes" "no"
  refine ⟨?_, h.2 (by decide)⟩
  rw [h.1]
  decide

/-! ## Claim C4: exception behavior -/

/-- Claim C4 (amended): for every STRING input the validators return a
well-formed envelope and never raise — `validate_all_essential_data`
returns a normal `Success`/`Error` envelope (even when the five
`None`-tolerant arguments are `None`), `_parse_multi_item_list` returns
normally on every string, and the number and flag parsers handle `None`
by returning their error envelope; only `_parse_multi_item_list` (and
hence the batch validator through its three list arguments) raises on
`None`.  Moreover an `Error` envelope is only returned when its error
mapping is nonempty. -/
theorem c4_no_raise_amended (i sv ef l h : Option String) (c e v : String) :
    (validate_all_essential_data i (some c) (some e) (some v) sv ef l h =
      PyResult.ok (if validationErrors i c e v sv ef l h = []
        then Envelope.success (validatedData i c e v sv ef l h)
        else Envelope.error (validationErrors i c e v sv ef l h))) ∧
    (∀ (s : String) (nn : Bool),
      parse_multi_item_list_opt (some s) nn = PyResult.ok (parse_multi_item_list s nn)) ∧
    sanitize_and_parse_number_str none = .error "No value provided" ∧
    (∀ lbl : String, parse_yes_no_flag none lbl =
      .error ("'" ++ lbl ++ "' is required and must be Yes or No.")) ∧
    (∀ errs, validate_all_essential_data i (some c) (some e) (some v) sv ef l h =
      PyResult.ok (Envelope.error errs) → errs ≠ []) := by
  refine ⟨rfl, fun s nn => rfl, rfl, fun lbl => rfl, fun errs herr => ?_⟩
  simp only [validate_all_essential_data] at herr
  by_cases hne : validationErrors i c e v sv ef l h = []
  · rw [validationErrors] at hne
    rw [if_pos hne] at herr
    cases herr
  · rw [validationErrors] at hne
    rw [if_neg hne] at herr
    cases herr
    intro hc
    exact hne (by rw [hc])

/-- Witness for C4 (amended), at inputs where the income is missing:
the envelope is a single `Error` and its mapping is nonempty. -/
theorem c4_no_raise_amended_witness :
    validate_all_essential_data none (some "") (some "") (some "") (some "0") (some "0")
      (some "y") (some "n") =
      PyResult.ok (if validationErrors none "" "" "" (some "0") (some "0") (some "y")
          (some "n") = []
        then Envelope.success (validatedData none "" "" "" (some "0") (some "0") (some "y")
          (some "n"))
        else Envelope.error (validationErrors none "" "" "" (some "0") (some "0") (some "y")
          (some "n"))) ∧
    [("monthly_net_income", "No value provided")] ≠ ([] : List (String × String)) := by
  refine ⟨(c4_no_raise_amended none (some "0") (some "0") (some "y") (some "n")
    "" "" "").1, ?_⟩
  exact (c4_no_raise_amended none (some "0") (some "0") (some "y") (some "n")
    "" "" "").2.2.2.2 [("monthly_net_income", "No value provided")] (by decide)

/-! ## Claim C5: contents of a success payload -/

lemma incomeField_ok (s : Option String) (h : (incomeField s).1 = []) :
    ∃ q, sanitize_and_parse_number_str s = .ok q ∧ 0 < q ∧
      (incomeField s).2 = [("monthly_net_income", FieldValue.num q)] := by
  cases hq : sanitize_and_parse_number_str s with
  | error e => simp [incomeField, hq] at h
  | ok q =>
    cases hb : Rat.blt 0 q with
    | false => simp [incomeField, hq, hb] at h
    | true =>
      exact ⟨q, rfl, (rat_lt_iff_blt 0 q).mpr hb, by simp [incomeField, hq, hb]⟩

lemma listField_ok (k1 k2 k3 : String) (s : String) (h : (listField k1 k2 k3 s).1 = []) :
    ∃ its tot, parse_multi_item_list s true = .ok (its, tot) ∧
      (listField k1 k2 k3 s).2 =
        [(k2, FieldValue.items its), (k3, FieldValue.num tot)] := by
  cases hq : parse_multi_item_list s true with
  | error e => simp [listField, hq] at h
  | ok r =>
    obtain ⟨its, tot⟩ := r
    exact ⟨its, tot, rfl, by simp [listField, hq]⟩

lemma nonnegField_ok (k m : String) (s : Option String) (h : (nonnegField k m s).1 = []) :
    ∃ q, sanitize_and_parse_number_str s = .ok q ∧ 0 ≤ q ∧
      (nonnegField k m s).2 = [(k, FieldValue.num q)] := by
  cases hq : sanitize_and_parse_number_str s with
  | error e => simp [nonnegField, hq] at h
  | ok q =>
    cases hb : Rat.blt q 0 with
    | true => simp [nonnegField, hq, hb] at h
    | false =>
      exact ⟨q, rfl, (rat_le_iff_blt 0 q).mpr hb, by simp [nonnegField, hq, hb]⟩

lemma flagField_ok (k : String) (s : Option String) (h : (flagField k s).1 = []) :
    ∃ b, parse_yes_no_flag s k = .ok b ∧
      (flagField k s).2 = [(k, FieldValue.flag b)] := by
  cases hq : parse_yes_no_flag s k with
  | error e => simp [flagField, hq] at h
  | ok b => exact ⟨b, rfl, by simp [flagField, hq]⟩

/-- Claim C5 (amended): whenever `validate_all_essential_data` returns
`Success`, the payload is exactly the eleven documented entries, in
order: the three numeric scalar fields carry the PARSED, UNROUNDED
values (positive income, non-negative savings and emergency fund), the
three item lists carry their parser's items and totals, and the two
insurance flags are booleans. -/
theorem c5_success_data_amended (i c e v sv ef l h : String)
    (d : List (String × FieldValue))
    (hd : validate_all_essential_data (some i) (some c) (some e) (some v) (some sv)
      (some ef) (some l) (some h) = PyResult.ok (Envelope.success d)) :
    ∃ (qi : ℚ) (its1 : List Item) (t1 : ℚ) (its2 : List Item) (t2 : ℚ)
      (its3 : List Item) (t3 : ℚ) (qs qe : ℚ) (b1 b2 : Bool),
      sanitize_and_parse_number_str (some i) = .ok qi ∧ 0 < qi ∧
      parse_multi_item_list c true = .ok (its1, t1) ∧
      parse_multi_item_list e true = .ok (its2, t2) ∧
      parse_multi_item_list v true = .ok (its3, t3) ∧
      sanitize_and_parse_number_str (some sv) = .ok qs ∧ 0 ≤ qs ∧
      sanitize_and_parse_number_str (some ef) = .ok qe ∧ 0 ≤ qe ∧
      parse_yes_no_flag (some l) "has_life_insurance" = .ok b1 ∧
      parse_yes_no_flag (some h) "has_health_insurance" = .ok b2 ∧
      d = [("monthly_net_income", FieldValue.num qi),
           ("commitments", FieldValue.items its1),
           ("total_commitments", FieldValue.num t1),
           ("emis", FieldValue.items its2), ("total_emi", FieldValue.num t2),
           ("investments", FieldValue.items its3),
           ("total_investment_contributions", FieldValue.num t3),
           ("savings_per_month", FieldValue.num qs),
           ("emergency_fund_amount", FieldValue.num qe),
           ("has_life_insurance", FieldValue.flag b1),
           ("has_health_insurance", FieldValue.flag b2)] := by
  simp only [validate_all_essential_data] at hd
  by_cases hne : (validateAllParts (some i) c e v (some sv) (some ef) (some l) (some h)).1 = []
  · rw [if_pos hne] at hd
    simp only [PyResult.ok.injEq, Envelope.success.injEq] at hd
    have hdata := hd
    simp only [validateAllParts, List.append_eq_nil] at hne
    obtain ⟨⟨⟨⟨⟨⟨⟨h1, h2⟩, h3⟩, h4⟩, h5⟩, h6⟩, h7⟩, h8⟩ := hne
    obtain ⟨qi, hqi, hqip, hd1⟩ := incomeField_ok _ h1
    obtain ⟨its1, t1, hl1, hd2⟩ := listField_ok _ _ _ _ h2
    obtain ⟨its2, t2, hl2, hd3⟩ := listField_ok _ _ _ _ h3
    obtain ⟨its3, t3, hl3, hd4⟩ := listField_ok _ _ _ _ h4
    obtain ⟨qs, hqs, hqsp, hd5⟩ := nonnegField_ok _ _ _ h5
    obtain ⟨qe, hqe, hqep, hd6⟩ := nonnegField_ok _ _ _ h6
    obtain ⟨b1, hb1, hd7⟩ := flagField_ok _ _ h7
    obtain ⟨b2, hb2, hd8⟩ := flagField_ok _ _ h8
    refine ⟨qi, its1, t1, its2, t2, its3, t3, qs, qe, b1, b2, hqi, hqip, hl1, hl2, hl3,
      hqs, hqsp, hqe, hqep, hb1, hb2, ?_⟩
    rw [← hdata]
    simp only [validateAllParts]
    rw [hd1, hd2, hd3, hd4, hd5, hd6, hd7, hd8]
    rfl
  · rw [if_neg hne] at hd
    simp only [PyResult.ok.injEq] at hd
    exact absurd hd (by simp)

/-- Witness for C5 (amended) at a concrete successful validation. -/
theorem c5_success_data_amended_witness :
    ∃ (qi : ℚ) (its1 : List Item) (t1 : ℚ) (its2 : List Item) (t2 : ℚ)
      (its3 : List Item) (t3 : ℚ) (qs qe : ℚ) (b1 b2 : Bool),
      sanitize_and_parse_number_str (some "100") = .ok qi ∧ 0 < qi ∧
      parse_multi_item_list "rent:50" true = .ok (its1, t1) ∧
      parse_multi_item_list "" true = .ok (its2, t2) ∧
      parse_multi_item_list "" true = .ok (its3, t3) ∧
      sanitize_and_parse_number_str (some "0") = .ok qs ∧ 0 ≤ qs ∧
      sanitize_and_parse_number_str (some "0") = .ok qe ∧ 0 ≤ qe ∧
      parse_yes_no_flag (some "yes") "has_life_insurance" = .ok b1 ∧
      parse_yes_no_flag (some "no") "has_health_insurance" = .ok b2 ∧
      [("monthly_net_income", FieldValue.num 100),
       ("commitments", FieldValue.items [⟨"rent", 50⟩]),
       ("total_commitments", FieldValue.num 50),
       ("emis", FieldValue.items []), ("total_emi", FieldValue.num 0),
       ("investments", FieldValue.items []),
       ("total_investment_contributions", FieldValue.num 0),
       ("savings_per_month", FieldValue.num 0),
       ("emergency_fund_amount", FieldValue.num 0),
       ("has_life_insurance", FieldValue.flag true),
       ("has_health_insurance", FieldValue.flag false)] =
      [("monthly_net_income", FieldValue.num qi),
       ("commitments", FieldValue.items its1),
       ("total_commitments", FieldValue.num t1),
       ("emis", FieldValue.items its2), ("total_emi", FieldValue.num t2),
       ("investments", FieldValue.items its3),
       ("total_investment_contributions", FieldValue.num t3),
       ("savings_per_month", FieldValue.num qs),
       ("emergency_fund_amount", FieldValue.num qe),
       ("has_life_insurance", FieldValue.flag b1),
       ("has_health_insurance", FieldValue.flag b2)] :=
  c5_success_data_amended "100" "rent:50" "" "" "0" "0" "yes" "no"
    [("monthly_net_income", FieldValue.num 100),
     ("commitments", FieldValue.items [⟨"rent", 50⟩]),
     ("total_commitments", FieldValue.num 50),
     ("emis", FieldValue.items []), ("total_emi", FieldValue.num 0),
     ("investments", FieldValue.items []),
     ("total_investment_contributions", FieldValue.num 0),
     ("savings_per_month", FieldValue.num 0),
     ("emergency_fund_amount", FieldValue.num 0),
     ("has_life_insurance", FieldValue.flag true),
     ("has_health_insurance", FieldValue.flag false)] (by decide)

/-! ## Claims C6 and C7: structure of the delimited form -/

lemma labelsFrom_length (parts : List (List Char)) (n : ℕ) :
    (labelsFrom parts n).length = parts.length := by
  induction parts generalizing n with
  | nil => rfl
  | cons p ps ih => simp [labelsFrom, ih]

lemma labelsFrom_get (parts : List (List Char)) (n j : ℕ) (hj : j < parts.length)
    (hj2 : j < (labelsFrom parts n).length) :
    (labelsFrom parts n).get ⟨j, hj2⟩ = fragLabel (parts.get ⟨j, hj⟩) (n + j) := by
  induction parts generalizing n j with
  | nil => simp at hj
  | cons p ps ih =>
    cases j with
    | zero => simp [labelsFrom]
    | succ j' =>
      have hj' : j' < ps.length := by simpa using hj
      have hj2' : j' < (labelsFrom ps (n + 1)).length := by
        rw [labelsFrom_length]; exact hj'
      simp only [labelsFrom, List.get_cons_succ]
      rw [ih (n + 1) j' hj' hj2']
      congr 1
      omega

/-- On success, the delimited-form loop appends one item per fragment:
the result extends the accumulator with exactly one new item per
fragment, in fragment order, and the `j`-th new item's label is the
fragment's label at running count `acc.length + j`. -/
lemma processParts_ok_items (nonneg : Bool) (parts : List (List Char)) (idx : ℕ)
    (acc : List Item) (tot : ℚ) (items : List Item) (total : ℚ)
    (h : processParts nonneg parts idx acc tot = .ok (items, total)) :
    ∃ newItems : List Item, items = acc ++ newItems ∧
      newItems.map Item.type = labelsFrom parts acc.length := by
  induction parts generalizing idx acc tot with
  | nil =>
    simp only [processParts, Except.ok.injEq, Prod.mk.injEq] at h
    exact ⟨[], by simp [← h.1], by simp [labelsFrom]⟩
  | cons p ps ih =>
    simp only [processParts] at h
    split at h
    · exact absurd h (by simp)
    · rename_i amt heq
      split at h
      · exact absurd h (by simp)
      · obtain ⟨newI, hitems, hlab⟩ := ih _ _ _ h
        refine ⟨⟨truthyLabel (partName p) ("item_" ++ toString acc.length),
          round2 amt⟩ :: newI, ?_, ?_⟩
        · rw [hitems]
          simp
        · simp only [List.map_cons, labelsFrom, List.cons.injEq]
          refine ⟨rfl, ?_⟩
          rw [hlab]
          congr 1
          simp

/-- Claim C7: in the delimited form, a successful parse produces exactly
one item per fragment, in fragment order with no de-duplication or
sorting, and the `j`-th item's label is `fragLabel` of the `j`-th
fragment at running count `j` — the trimmed text before the fragment's
first colon when that text is nonempty, and the auto-generated
`item_<j>` otherwise, where `j` equals the number of items already
accumulated in the call (each earlier fragment contributed exactly one
item, so running count and fragment position coincide). -/
theorem c7_labels_order (s : String) (nonneg : Bool) (items : List Item) (total : ℚ)
    (h1 : pyStrip s.data ≠ []) (h2 : (pyStrip s.data).head? ≠ some lbrace)
    (h3 : parse_multi_item_list s nonneg = .ok (items, total)) :
    items.map Item.type = labelsFrom (splitParts (pyStrip s.data)) 0 ∧
    items.length = (splitParts (pyStrip s.data)).length ∧
    ∀ (j : ℕ) (hj : j < (splitParts (pyStrip s.data)).length) (hj2 : j < items.length),
      (items.get ⟨j, hj2⟩).type = fragLabel ((splitParts (pyStrip s.data)).get ⟨j, hj⟩) j := by
  simp only [parse_multi_item_list] at h3
  rw [if_neg h1, if_neg h2] at h3
  by_cases hp : splitParts (pyStrip s.data) = []
  · rw [if_pos hp] at h3
    exact absurd h3 (by simp)
  · rw [if_neg hp] at h3
    obtain ⟨newI, hitems, hlab⟩ := processParts_ok_items _ _ _ _ _ _ _ h3
    simp only [List.nil_append] at hitems
    subst hitems
    have hmap : items.map Item.type = labelsFrom (splitParts (pyStrip s.data)) 0 := by
      simpa using hlab
    refine ⟨hmap, ?_, ?_⟩
    · have hlen := congrArg List.length hmap
      simpa [labelsFrom_length] using hlen
    · intro j hj hj2
      have hj3 : j < (List.map Item.type items).length := by simpa using hj2
      have hj4 : j < (labelsFrom (splitParts (pyStrip s.data)) 0).length := by
        rw [labelsFrom_length]; exact hj
      have h5 : (List.map Item.type items).get ⟨j, hj3⟩ =
          (labelsFrom (splitParts (pyStrip s.data)) 0).get ⟨j, hj4⟩ :=
        List.get_of_eq hmap ⟨j, hj3⟩
      rw [labelsFrom_get _ _ _ hj hj4] at h5
      have h6 : (List.map Item.type items).get ⟨j, hj3⟩ = (items.get ⟨j, hj2⟩).type := by
        simp
      rw [h6] at h5
      rw [h5]
      congr 1
      omega

/-- Witness for C7 at `"5000, rent:200"`: the bare first fragment is
auto-labeled `item_0` and the labeled second fragment keeps its trimmed
label, in input order. -/
theorem c7_labels_order_witness :
    ([⟨"item_0", 5000⟩, ⟨"rent", 200⟩] : List Item).map Item.type =
      labelsFrom (splitParts (pyStrip "5000, rent:200".data)) 0 ∧
    ([⟨"item_0", 5000⟩, ⟨"rent", 200⟩] : List Item).length =
      (splitParts (pyStrip "5000, rent:200".data)).length := by
  have h := c7_labels_order "5000, rent:200" true [⟨"item_0", 5000⟩, ⟨"rent", 200⟩] 5200
    (by decide) (by decide) (by decide)
  exact ⟨h.1, h.2.1⟩

/-- Claim C6 (amended): empty or whitespace-only input returns success
with an empty item list and total 0.0; a non-empty non-JSON input that
splits into zero non-empty fragments fails with "No items provided.";
in the non-JSON form a success always carries at least one item (one
per fragment) — but the JSON-object form can also return success with
an empty item list and total 0.0, namely on the empty object `"{}"`,
so "exactly when the input is empty or whitespace-only" holds only
outside the JSON branch. -/
theorem c6_empty_handling_amended :
    (∀ s : String, pyStrip s.data = [] → parse_multi_item_list s true = .ok ([], 0)) ∧
    (∀ s : String, pyStrip s.data ≠ [] → (pyStrip s.data).head? ≠ some lbrace →
      splitParts (pyStrip s.data) = [] →
      parse_multi_item_list s true = .error "No items provided.") ∧
    (∀ (s : String) (nonneg : Bool) (items : List Item) (total : ℚ),
      pyStrip s.data ≠ [] → (pyStrip s.data).head? ≠ some lbrace →
      parse_multi_item_list s nonneg = .ok (items, total) → items ≠ []) ∧
    parse_multi_item_list "{}" true = .ok ([], 0) := by
  refine ⟨?_, ?_, ?_, by decide⟩
  · intro s hs
    simp only [parse_multi_item_list]
    rw [if_pos hs]
  · intro s hs1 hs2 hsp
    simp only [parse_multi_item_list]
    rw [if_neg hs1, if_neg hs2, if_pos hsp]
  · intro s nonneg items total hs1 hs2 h3
    simp only [parse_multi_item_list] at h3
    rw [if_neg hs1, if_neg hs2] at h3
    by_cases hp : splitParts (pyStrip s.data) = []
    · rw [if_pos hp] at h3
      exact absurd h3 (by simp)
    · rw [if_neg hp] at h3
      obtain ⟨newI, hitems, hlab⟩ := processParts_ok_items _ _ _ _ _ _ _ h3
      simp only [List.nil_append] at hitems
      subst hitems
      intro hempty
      rw [hempty] at hlab
      have := congrArg List.length hlab
      simp [labelsFrom_length] at this
      exact hp (List.length_eq_zero.mp this.symm)

/-- Witness for C6 (amended): whitespace-only input succeeds with an
empty list, `","` (non-empty but all delimiters) fails with "No items
provided.", and a delimited success is never empty. -/
theorem c6_empty_handling_amended_witness :
    parse_multi_item_list "  " true = .ok ([], 0) ∧
    parse_multi_item_list "," true = .error "No items provided." ∧
    ([⟨"item_0", 5⟩] : List Item) ≠ [] :=
  ⟨c6_empty_handling_amended.1 "  " (by decide),
   c6_empty_handling_amended.2.1 "," (by decide) (by decide) (by decide),
   c6_empty_handling_amended.2.2.1 "5" true [⟨"item_0", 5⟩] 5 (by decide) (by decide)
     (by decide)⟩

/-! ## Claim C10: labels at the colon boundary -/

lemma splitFirst_eq (c : Char) (l : List Char) (a b : List Char)
    (h : splitFirst c l = some (a, b)) : l = a ++ c :: b := by
  induction l generalizing a b with
  | nil => simp [splitFirst] at h
  | cons x t ih =>
    simp only [splitFirst] at h
    by_cases hx : x = c
    · rw [if_pos hx] at h
      simp only [Option.some.injEq, Prod.mk.injEq] at h
      rw [← h.1, ← h.2, hx]
      simp
    · rw [if_neg hx] at h
      cases hsp : splitFirst c t with
      | none => rw [hsp] at h; exact absurd h (by simp)
      | some pr =>
        obtain ⟨pa, pb⟩ := pr
        rw [hsp] at h
        simp only [Option.some.injEq, Prod.mk.injEq] at h
        rw [← h.1, ← h.2]
        simp [ih pa pb hsp]

lemma exists_dropWhile_pre (p : Char → Bool) (l : List Char) :
    ∃ pre, l = pre ++ l.dropWhile p := by
  induction l with
  | nil => exact ⟨[], rfl⟩
  | cons c t ih =>
    by_cases hc : p c
    · obtain ⟨pre, hpre⟩ := ih
      refine ⟨c :: pre, ?_⟩
      rw [List.dropWhile_cons_of_pos hc]
      simpa using hpre
    · exact ⟨[], by rw [List.dropWhile_cons_of_neg hc]; rfl⟩

/-- A nonempty stripped string starts with a non-whitespace character. -/
lemma pyStrip_head (l : List Char) (h : pyStrip l ≠ []) :
    ∃ c t, pyStrip l = c :: t ∧ pySpace c = false := by
  obtain ⟨pre, hpre⟩ :=
    exists_dropWhile_pre pySpace (l.dropWhile pySpace).reverse
  have hA : l.dropWhile pySpace = pyStrip l ++ pre.reverse := by
    have := congrArg List.reverse hpre
    simpa [pyStrip] using this
  cases hB : pyStrip l with
  | nil => exact absurd hB h
  | cons c t =>
    refine ⟨c, t, rfl, ?_⟩
    have hh := List.head?_dropWhile_not pySpace l
    rw [hA, hB] at hh
    simpa using hh

lemma mem_splitParts (raw p : List Char) (hp : p ∈ splitParts raw) :
    p ≠ [] ∧ ∃ q, p = pyStrip q := by
  simp only [splitParts, List.mem_filter, List.mem_map] at hp
  obtain ⟨⟨q, _, hq2⟩, hne⟩ := hp
  constructor
  · simpa [List.isEmpty_iff] using hne
  · exact ⟨q, hq2.symm⟩

/-- Claim C10 (amended): each fragment of the delimited form is
stripped before the colon split, so the text before the first colon is
never nonempty-but-whitespace-only — a fragment like `" :5000"` becomes
`":5000"`, whose empty pre-colon text makes it a bare amount with the
auto-generated label `item_<n>`; the empty-string label is never
produced.  Concretely, `":5000"` alone is labeled `item_0`, and in
`"x:1, :5000"` the fragment `" :5000"` is labeled `item_1`. -/
theorem c10_label_amended :
    (∀ raw p n rest : List Char, p ∈ splitParts raw →
      splitFirst ':' p = some (n, rest) → n ≠ [] → pyStrip n ≠ []) ∧
    parse_multi_item_list ":5000" true = .ok ([⟨"item_0", 5000⟩], 5000) ∧
    parse_multi_item_list "x:1, :5000" true =
      .ok ([⟨"x", 1⟩, ⟨"item_1", 5000⟩], 5001) := by
  refine ⟨?_, by decide, by decide⟩
  intro raw p n rest hp hsp hn
  obtain ⟨hpne, q, hq⟩ := mem_splitParts raw p hp
  obtain ⟨c, t, hct, hcs⟩ := pyStrip_head q (by rw [← hq]; exact hpne)
  rw [← hq] at hct
  have hdecomp := splitFirst_eq ':' p n rest hsp
  cases n with
  | nil => exact absurd rfl hn
  | cons n0 nt =>
    have hn0 : n0 = c := by
      rw [hct] at hdecomp
      simp only [List.cons_append, List.cons.injEq] at hdecomp
      exact hdecomp.1.symm
    intro hstrip
    have h1 : (n0 :: nt).dropWhile pySpace = n0 :: nt := by
      apply List.dropWhile_cons_of_neg
      rw [hn0, hcs]
      simp
    simp only [pyStrip] at hstrip
    rw [h1, List.reverse_eq_nil_iff, List.dropWhile_eq_nil_iff] at hstrip
    have hsp0 := hstrip n0 (by simp)
    rw [hn0, hcs] at hsp0
    cases hsp0

/-- Witness for C10 (amended): the nonempty pre-colon text `"ab"` of the
fragment `"ab:1"` does not strip to empty, and `":5000"` alone is
auto-labeled `item_0`. -/
theorem c10_label_amended_witness :
    pyStrip "ab".data ≠ [] ∧
    parse_multi_item_list ":5000" true = .ok ([⟨"item_0", 5000⟩], 5000) :=
  ⟨c10_label_amended.1 "ab:1".data "ab:1".data "ab".data "1".data (by decide) (by decide)
     (by decide),
   c10_label_amended.2.1⟩

/-! ## Claims C3 and C9: the accepted number grammar -/

